import Mathlib

/-!
# Verification of the draft approval workflow (`draft_approval_workflow.py`)

Shallow embedding of the blog draft-approval workflow: a watcher detects new
draft files, a TTS stage synthesizes audio, a notification stage posts an
approval card, and a reaction handler resolves approve/reject reactions by
moving/deleting files and updating an in-memory tracking table.

Python strings are modelled as `List Char` where character-level content
matters (TTS text, embed body) and as `String` for file paths.  The
filesystem, tracking table and rejection log are modelled as explicit fields
of a `World` state; external calls that can raise are modelled with an
explicit fault parameter naming the operation (if any) that raises.
-/

namespace DraftWorkflow

/-! ## TTS content truncation (`generate_tts_audio`, lines 216-228) -/

/-- `max_length = 5000` from `generate_tts_audio`. -/
def max_length : Nat := 5000

/-- The literal marker string appended by the code on truncation
(`"... [content truncated for audio]"`, with a space after the ellipsis). -/
def truncationMarkerCode : List Char := ("... [content truncated for audio]").data

/-- The marker string as the spec writes it (`"...[content truncated for audio]"`,
no space after the ellipsis).  Kept separate so the claim can be compared with
the code's marker. -/
def truncationMarkerSpec : List Char := ("...[content truncated for audio]").data

/-- The text actually sent to the TTS service:
`content[:max_length-100] + "... [content truncated for audio]"` when
`len(content) > max_length`, else `content` unmodified. -/
def tts_content (content : List Char) : List Char :=
  if content.length > max_length then
    content.take (max_length - 100) ++ truncationMarkerCode
  else
    content

/-! ## Discord embed composition (`send_draft_to_discord`, lines 276-285) -/

/-- The fixed display limit used in `send_draft_to_discord` (`content[:2000]`). -/
def displayLimit : Nat := 2000

/-- The embed description:
`content[:2000] + ("..." if len(content) > 2000 else "")`. -/
def embedDescription (content : List Char) : List Char :=
  content.take displayLimit ++ (if content.length > displayLimit then ("...").data else [])

/-- The character-count metadata field: `f"{len(content)} characters"`,
modelled as the number itself. -/
def embedSizeField (content : List Char) : Nat := content.length

/-! ## Path operations (`pathlib`)

`Path.name` is the final component of the path; `Path.with_suffix(s)` drops
the final component's extension (the part from its last `.`, when that dot is
neither the name's first nor last character) and appends `s`. -/

/-- Split a path into (directory prefix including the final `/`, final name). -/
def splitName (p : List Char) : List Char × List Char :=
  match p.reverse.findIdx? (fun c => c = '/') with
  | none => ([], p)
  | some j =>
    let i := p.length - 1 - j
    (p.take (i + 1), p.drop (i + 1))

/-- `Path(p).name`: the final path component. -/
def baseName (p : String) : String := String.mk (splitName p.data).2

/-- The stem of a file name: the name with its extension removed.  The
extension starts at the last `.` of the name provided that dot is at an index
`i` with `0 < i < len - 1` (CPython `PurePath.suffix`). -/
def nameStem (name : List Char) : List Char :=
  match name.reverse.findIdx? (fun c => c = '.') with
  | none => name
  | some j =>
    let i := name.length - 1 - j
    if 0 < i ∧ i < name.length - 1 then name.take i else name

/-- `Path(p).with_suffix(suf)`. -/
def withSuffix (p : String) (suf : String) : String :=
  let dn := splitName p.data
  String.mk (dn.1 ++ nameStem dn.2 ++ suf.data)

/-- The audio destination computed by the TTS stage
(`audio_path = draft_path.with_suffix('.mp3')`, line 245). -/
def ttsAudioDest (draftPath : String) : String := withSuffix draftPath ".mp3"

/-- The audio path deleted by the rejection handler
(`audio_path = Path(draft_path).with_suffix('.mp3')`, line 121). -/
def rejectionAudioPath (draftPath : String) : String := withSuffix draftPath ".mp3"

/-! ## World state

The observable state the reaction handlers mutate: the set of existing files,
the set of existing directories, the tracking table `draft_messages`
(a dict `draft_path -> message`, modelled as an association list keyed by
draft path with the posted message's id), the lines of `rejections.log`, and
a count of handler errors that were caught and logged. -/

structure World where
  files : List String
  dirs : List String
  table : List (String × Nat)
  rejLog : List String
  errors : Nat
  deriving DecidableEq, Repr

/-- The fallible operation inside `handle_approval`'s `try` block at which an
injected exception is raised: `approved_folder.mkdir`, `draft_file.rename`,
or `message.edit`.  (`del self.draft_messages[draft_path]` is an in-memory
dict deletion of a present key and cannot raise.) -/
inductive ApprovalFault
  | atMkdir
  | atRename
  | atEdit
  deriving DecidableEq, Repr

/-- The fallible operation inside `handle_rejection`'s `try` block at which an
injected exception is raised: `audio_path.unlink`, `message.edit`, or the
`rejections.log` append. -/
inductive RejectionFault
  | atUnlink
  | atEdit
  | atLogWrite
  deriving DecidableEq, Repr

/-- The destination `approved_folder / draft_file.name` of an approved draft. -/
def approvedPath (folder p : String) : String := folder ++ "/" ++ baseName p

/-- `DraftApprovalBot.handle_approval` (lines 92-115): inside a `try` block,
create the approved folder (`exist_ok=True`), rename the draft file to
`approved_folder/<name>` (raises if the source file does not exist), edit the
posted message, then delete the draft's tracking-table entry; any exception is
caught and logged (`errors` incremented), leaving the handler's earlier
effects in place. -/
def handle_approval (w : World) (p folder : String) (fault : Option ApprovalFault) : World :=
  if fault = some .atMkdir then { w with errors := w.errors + 1 }
  else
    let w1 := { w with dirs := if folder ∈ w.dirs then w.dirs else folder :: w.dirs }
    if fault = some .atRename ∨ p ∉ w1.files then { w1 with errors := w1.errors + 1 }
    else
      let w2 := { w1 with
        files := approvedPath folder p :: w1.files.filter (fun q => q != p) }
      if fault = some .atEdit then { w2 with errors := w2.errors + 1 }
      else { w2 with table := w2.table.filter (fun e => e.1 != p) }

/-- `DraftApprovalBot.handle_rejection` (lines 117-141): inside a `try` block,
unlink the audio file if it exists, edit the posted message, append
`f"{time.time()},{draft_path}\n"` to `rejections.log` (the timestamp rendering
is the parameter `ts`), then delete the draft's tracking-table entry; any
exception is caught and logged. -/
def handle_rejection (w : World) (p ts : String) (fault : Option RejectionFault) : World :=
  let audio := rejectionAudioPath p
  if audio ∈ w.files ∧ fault = some .atUnlink then { w with errors := w.errors + 1 }
  else
    let w1 := { w with files := w.files.filter (fun q => q != audio) }
    if fault = some .atEdit then { w1 with errors := w1.errors + 1 }
    else if fault = some .atLogWrite then { w1 with errors := w1.errors + 1 }
    else
      let w2 := { w1 with rejLog := w1.rejLog ++ [ts ++ "," ++ p] }
      { w2 with table := w2.table.filter (fun e => e.1 != p) }

/-- A raw reaction-added event (`discord.RawReactionActionEvent`). -/
structure Payload where
  user_id : Nat
  channel_id : Nat
  message_id : Nat
  emoji : String
  deriving DecidableEq, Repr

/-- The linear lookup in `on_raw_reaction_add` (lines 77-80): the first
tracked draft whose posted message id equals the payload's message id. -/
def findDraft (table : List (String × Nat)) (mid : Nat) : Option String :=
  (table.find? (fun e => e.2 = mid)).map (fun e => e.1)

/-- `DraftApprovalBot.on_raw_reaction_add` (lines 67-90): ignore the bot's own
reactions, resolve the message id to a tracked draft path (ignoring the event
if none is found), then dispatch on the emoji — `"✅"` to `handle_approval`,
`"❌"` to `handle_rejection`, anything else ignored.  (The `fetch_message`
call on line 73 is read-only and does not touch the modelled state.) -/
def on_raw_reaction_add (w : World) (botId : Nat) (pl : Payload) (folder ts : String)
    (fa : Option ApprovalFault) (fr : Option RejectionFault) : World :=
  if pl.user_id = botId then w
  else
    match findDraft w.table pl.message_id with
    | none => w
    | some draftPath =>
      if pl.emoji = "✅" then handle_approval w draftPath folder fa
      else if pl.emoji = "❌" then handle_rejection w draftPath ts fr
      else w

/-! ## TTS stage (`generate_tts_audio`, lines 188-254)

The Home Assistant HTTP calls are opaque external collaborators: each call
either raises (transport error, or `raise_for_status` on a failure status) or
returns normally; a normal synthesis response carries an optional `url`
field. -/

/-- The configuration read from the environment: `HOME_ASSISTANT_URL` and
`HOME_ASSISTANT_TOKEN` (`None` when unset). -/
structure TTSConfig where
  haUrl : Option String
  haToken : Option String
  deriving DecidableEq, Repr

/-- Python falsiness of an optional environment string: `None` or `""`
(the `not all([ha_url, ha_token])` check). -/
def falsy (o : Option String) : Bool := o.isNone || o == some ""

/-- Outcome of the synthesis POST to `/api/tts_get_url` as observed through
`requests`: `fail` when the call raises (transport error or
`raise_for_status`), `ok url` when it returns a JSON body whose `url` field is
`url` (`none` when absent). -/
inductive SynthOutcome
  | fail
  | ok (url : Option String)
  deriving DecidableEq, Repr

/-- Outcome of the audio download GET: raises, or returns the payload. -/
inductive DownloadOutcome
  | fail
  | ok
  deriving DecidableEq, Repr

/-- Result classification of the TTS stage.  The code returns `None` on every
failure path; the variants name the spec's failure taxonomy, one per distinct
code branch (config check, caught HTTP exception, missing `url` field). -/
inductive TTSResult
  | success (audioPath : String)
  | serviceUnavailable
  | upstreamError
  | noResult
  deriving DecidableEq, Repr

/-- `generate_tts_audio`: check configuration, POST the synthesis request,
read the result URL, download the audio, write it to
`draft_path.with_suffix('.mp3')`.  Returns the result classification together
with the list of files written (the audio file on success, nothing on any
failure path). -/
def generate_tts_audio (cfg : TTSConfig) (synth : SynthOutcome)
    (download : DownloadOutcome) (draftPath : String) : TTSResult × List String :=
  if falsy cfg.haUrl || falsy cfg.haToken then (.serviceUnavailable, [])
  else
    match synth with
    | .fail => (.upstreamError, [])
    | .ok none => (.noResult, [])
    | .ok (some _) =>
      match download with
      | .fail => (.upstreamError, [])
      | .ok => (.success (ttsAudioDest draftPath), [ttsAudioDest draftPath])

/-! ## Draft processing pipeline (`DraftFileHandler.process_draft`, lines 163-186) -/

/-- The pipeline state `process_draft` mutates: the bot's
`processed_drafts` set, the list of TTS submissions made (paths passed to
`generate_tts_audio`, in order), and the list of drafts sent to the
notification stage (`send_draft_to_discord`). -/
structure PipelineState where
  processed : List String
  ttsSubmissions : List String
  notified : List String
  deriving DecidableEq, Repr

/-- `DraftFileHandler.process_draft`: return immediately when the path is
already in `processed_drafts`; otherwise add it to the set, read the draft
content (`readOk = false` models `open`/`read` raising, caught by the outer
`try`), call `generate_tts_audio`, and send the draft to Discord only when an
audio path was returned. -/
def process_draft (st : PipelineState) (p : String) (readOk : Bool)
    (cfg : TTSConfig) (synth : SynthOutcome) (download : DownloadOutcome) : PipelineState :=
  if p ∈ st.processed then st
  else
    let st1 := { st with processed := p :: st.processed }
    if readOk then
      let st2 := { st1 with ttsSubmissions := st1.ttsSubmissions ++ [p] }
      match (generate_tts_audio cfg synth download p).1 with
      | .success _ => { st2 with notified := st2.notified ++ [p] }
      | _ => st2
    else st1

/-! ## Helper lemmas -/

/-- Filtering the table by `e.1 != p` leaves no entry keyed by `p`. -/
lemma table_filter_removes (t : List (String × Nat)) (p : String) :
    ∀ e ∈ t.filter (fun e => e.1 != p), e.1 ≠ p := by
  intro e he
  rw [List.mem_filter] at he
  exact bne_iff_ne.mp he.2

/-- Filtering the file list by `q != a` removes `a`. -/
lemma files_filter_removes (fs : List String) (a : String) :
    a ∉ fs.filter (fun q => q != a) := by
  intro ha
  rw [List.mem_filter] at ha
  exact bne_iff_ne.mp ha.2 rfl

/-- After a no-fault first processing, the path is in the processed set. -/
lemma mem_processed_process_draft (st : PipelineState) (p : String) (r : Bool)
    (c : TTSConfig) (s : SynthOutcome) (d : DownloadOutcome) :
    p ∈ (process_draft st p r c s d).processed := by
  by_cases hp : p ∈ st.processed
  · simp [process_draft, hp]
  · cases r <;> simp only [process_draft, if_neg hp, if_pos, if_neg, Bool.false_eq_true,
      reduceIte] <;> try exact List.mem_cons_self _ _
    split <;> exact List.mem_cons_self _ _

/-! ## Claim theorems -/

/-- C10: the audio destination the TTS stage writes
(`draft_path.with_suffix('.mp3')`, line 245) and the audio path the rejection
handler deletes (`Path(draft_path).with_suffix('.mp3')`, line 121) are
computed by the same function — the draft path with its extension replaced by
`.mp3` — so a reject reaction deletes exactly the audio file that was
generated for that draft. -/
theorem audio_paths_coincide (p : String) :
    ttsAudioDest p = rejectionAudioPath p ∧ ttsAudioDest p = withSuffix p ".mp3" :=
  ⟨rfl, rfl⟩

/-- C9: a reaction-added event whose reactor identity equals the bot's own
identity is ignored regardless of symbol — the handler returns before any
lookup or side effect, so the world (files, dirs, table, log) is unchanged. -/
theorem own_reaction_ignored (w : World) (botId : Nat) (pl : Payload)
    (folder ts : String) (fa : Option ApprovalFault) (fr : Option RejectionFault)
    (h : pl.user_id = botId) :
    on_raw_reaction_add w botId pl folder ts fa fr = w := by
  simp [on_raw_reaction_add, h]

/-- Witness for C9 at a concrete world and payload with `user_id = botId`. -/
theorem own_reaction_ignored_witness :
    on_raw_reaction_add ⟨["drafts/d-draft.md"], [], [("drafts/d-draft.md", 7)], [], 0⟩
        5 ⟨5, 3, 7, "✅"⟩ "approved" "1700000000.0" none none =
      ⟨["drafts/d-draft.md"], [], [("drafts/d-draft.md", 7)], [], 0⟩ :=
  own_reaction_ignored _ _ _ _ _ _ _ rfl

/-- C7: a reaction event whose message id maps to no tracking-table entry
leaves the world unchanged, and a tracked message reacted to with any symbol
other than `"✅"` or `"❌"` also leaves the world unchanged — in particular no
filesystem mutation and no table change. -/
theorem untracked_or_other_symbol_ignored (w : World) (botId : Nat) (pl : Payload)
    (folder ts : String) (fa : Option ApprovalFault) (fr : Option RejectionFault) :
    (findDraft w.table pl.message_id = none →
       on_raw_reaction_add w botId pl folder ts fa fr = w) ∧
    (pl.emoji ≠ "✅" → pl.emoji ≠ "❌" →
       on_raw_reaction_add w botId pl folder ts fa fr = w) := by
  constructor
  · intro hnone
    by_cases hu : pl.user_id = botId
    · simp [on_raw_reaction_add, hu]
    · simp [on_raw_reaction_add, hu, hnone]
  · intro h1 h2
    by_cases hu : pl.user_id = botId
    · simp [on_raw_reaction_add, hu]
    · cases hf : findDraft w.table pl.message_id <;>
        simp [on_raw_reaction_add, hu, hf, h1, h2]

/-- Witness for C7: an unknown message id, and a `"👍"` reaction on a tracked
message, both leave a concrete world unchanged. -/
theorem untracked_or_other_symbol_ignored_witness :
    (on_raw_reaction_add ⟨["drafts/d-draft.md"], [], [("drafts/d-draft.md", 7)], [], 0⟩
        1 ⟨2, 3, 9, "✅"⟩ "approved" "1700000000.0" none none =
      ⟨["drafts/d-draft.md"], [], [("drafts/d-draft.md", 7)], [], 0⟩) ∧
    (on_raw_reaction_add ⟨["drafts/d-draft.md"], [], [("drafts/d-draft.md", 7)], [], 0⟩
        1 ⟨2, 3, 7, "👍"⟩ "approved" "1700000000.0" none none =
      ⟨["drafts/d-draft.md"], [], [("drafts/d-draft.md", 7)], [], 0⟩) :=
  ⟨(untracked_or_other_symbol_ignored _ _ _ _ _ _ _).1 (by decide),
   (untracked_or_other_symbol_ignored _ _ _ _ _ _ _).2 (by decide) (by decide)⟩

/-- C5: a draft path is submitted for TTS at most once even when the creation
event is delivered twice: the processed-set is checked and the path added
before any TTS work, membership is never evicted (the processed set only
grows), and a second invocation of `process_draft` on the same path is the
identity — in particular it performs no TTS submission. -/
theorem duplicate_event_no_second_submission (st : PipelineState) (p : String)
    (r r' : Bool) (c c' : TTSConfig) (s s' : SynthOutcome) (d d' : DownloadOutcome) :
    p ∈ (process_draft st p r c s d).processed ∧
    process_draft (process_draft st p r c s d) p r' c' s' d' = process_draft st p r c s d ∧
    st.processed ⊆ (process_draft st p r c s d).processed ∧
    (process_draft st p r c s d).ttsSubmissions.count p ≤ st.ttsSubmissions.count p + 1 := by
  refine ⟨mem_processed_process_draft st p r c s d, ?_, ?_, ?_⟩
  · have hm := mem_processed_process_draft st p r c s d
    generalize hX : process_draft st p r c s d = X at hm ⊢
    simp [process_draft, hm]
  · by_cases hp : p ∈ st.processed
    · simp [process_draft, hp]
    · cases r <;> simp only [process_draft, if_neg hp, Bool.false_eq_true, reduceIte]
      · exact List.subset_cons_self _ _
      · split <;> exact List.subset_cons_self _ _
  · by_cases hp : p ∈ st.processed
    · simp [process_draft, hp]
    · cases r <;> simp only [process_draft, if_neg hp, Bool.false_eq_true, reduceIte]
      · omega
      · split <;> simp [List.count_append]

/-- Case analysis of `handle_approval`: either an exception was raised (one
error logged, table untouched) or the run completed (no error, entry
filtered out). -/
lemma handle_approval_cases (w : World) (p folder : String) (fa : Option ApprovalFault) :
    ((handle_approval w p folder fa).errors = w.errors + 1 ∧
     (handle_approval w p folder fa).table = w.table) ∨
    ((handle_approval w p folder fa).errors = w.errors ∧
     (handle_approval w p folder fa).table = w.table.filter (fun e => e.1 != p)) := by
  by_cases h0 : fa = some .atMkdir
  · left; simp [handle_approval, h0]
  · by_cases h1 : fa = some .atRename ∨ p ∉ w.files
    · left; simp [handle_approval, h0, h1]
    · have hra : fa ≠ some .atRename := fun h => h1 (Or.inl h)
      have hpf : p ∈ w.files := not_not.mp (fun h => h1 (Or.inr h))
      by_cases h2 : fa = some .atEdit
      · left; simp [handle_approval, h0, hra, hpf, h2]
      · right; simp [handle_approval, h0, hra, hpf, h2]

/-- Case analysis of `handle_rejection`: either an exception was raised (one
error logged, table untouched) or the run completed (no error, entry
filtered out). -/
lemma handle_rejection_cases (w : World) (p ts : String) (fr : Option RejectionFault) :
    ((handle_rejection w p ts fr).errors = w.errors + 1 ∧
     (handle_rejection w p ts fr).table = w.table) ∨
    ((handle_rejection w p ts fr).errors = w.errors ∧
     (handle_rejection w p ts fr).table = w.table.filter (fun e => e.1 != p)) := by
  by_cases h0 : rejectionAudioPath p ∈ w.files ∧ fr = some .atUnlink
  · left; simp [handle_rejection, h0]
  · by_cases h1 : fr = some .atEdit
    · left; simp [handle_rejection, h0, h1]
    · by_cases h2 : fr = some .atLogWrite
      · left; simp [handle_rejection, h0, h1, h2]
      · right; simp [handle_rejection, h0, h1, h2]

/-- C2: for an approve or reject reaction on a tracked draft, every exception
among the handler's side-effecting operations is caught and logged (the
handler always returns, logging at most one error), and the draft remains in
the tracking table exactly when an exception occurred — both branches delete
the table entry unconditionally as the last step inside the `try` block, after
all side-effecting operations. -/
theorem handler_error_keeps_draft_tracked (w : World) (p folder ts : String)
    (fa : Option ApprovalFault) (fr : Option RejectionFault)
    (hp : ∃ e ∈ w.table, e.1 = p) :
    ((∃ e ∈ (handle_approval w p folder fa).table, e.1 = p) ↔
       (handle_approval w p folder fa).errors = w.errors + 1) ∧
    ((∃ e ∈ (handle_rejection w p ts fr).table, e.1 = p) ↔
       (handle_rejection w p ts fr).errors = w.errors + 1) ∧
    (handle_approval w p folder fa).errors ≤ w.errors + 1 ∧
    (handle_rejection w p ts fr).errors ≤ w.errors + 1 := by
  have hne : ¬ (w.errors = w.errors + 1) := by omega
  have hnotin : ¬ ∃ e ∈ w.table.filter (fun e => e.1 != p), e.1 = p := by
    rintro ⟨e, he, hep⟩
    exact table_filter_removes _ _ e he hep
  refine ⟨?_, ?_, ?_, ?_⟩
  · rcases handle_approval_cases w p folder fa with ⟨herr, htab⟩ | ⟨herr, htab⟩ <;>
      rw [herr, htab]
    · exact iff_of_true hp rfl
    · exact iff_of_false hnotin hne
  · rcases handle_rejection_cases w p ts fr with ⟨herr, htab⟩ | ⟨herr, htab⟩ <;>
      rw [herr, htab]
    · exact iff_of_true hp rfl
    · exact iff_of_false hnotin hne
  · rcases handle_approval_cases w p folder fa with ⟨herr, _⟩ | ⟨herr, _⟩ <;> omega
  · rcases handle_rejection_cases w p ts fr with ⟨herr, _⟩ | ⟨herr, _⟩ <;> omega

/-- Witness for C2: with a rename failure injected into the approval of a
concrete tracked draft, the draft stays tracked and one error is logged. -/
theorem handler_error_keeps_draft_tracked_witness :
    (∃ e ∈ (handle_approval ⟨["drafts/d-draft.md"], [], [("drafts/d-draft.md", 7)], [], 0⟩
        "drafts/d-draft.md" "approved" (some .atRename)).table, e.1 = "drafts/d-draft.md") ↔
      (handle_approval ⟨["drafts/d-draft.md"], [], [("drafts/d-draft.md", 7)], [], 0⟩
        "drafts/d-draft.md" "approved" (some .atRename)).errors = 0 + 1 :=
  (handler_error_keeps_draft_tracked
    ⟨["drafts/d-draft.md"], [], [("drafts/d-draft.md", 7)], [], 0⟩
    "drafts/d-draft.md" "approved" "1700000000.0" (some .atRename) none (by decide)).1

/-- C3 (amended): after a no-fault approve reaction on a tracked draft whose
path differs from the approved destination, the draft no longer exists at its
original path, exists at `approved_folder/<original_name>`, the approved
folder exists (created if absent), and the draft's table entry is removed. -/
theorem approval_moves_draft (w : World) (p folder : String)
    (hfile : p ∈ w.files) (hne : p ≠ approvedPath folder p) :
    p ∉ (handle_approval w p folder none).files ∧
    approvedPath folder p ∈ (handle_approval w p folder none).files ∧
    folder ∈ (handle_approval w p folder none).dirs ∧
    (∀ e ∈ (handle_approval w p folder none).table, e.1 ≠ p) := by
  have hmain : handle_approval w p folder none =
      { w with
        dirs := if folder ∈ w.dirs then w.dirs else folder :: w.dirs,
        files := approvedPath folder p :: w.files.filter (fun q => q != p),
        table := w.table.filter (fun e => e.1 != p) } := by
    simp [handle_approval, hfile]
  rw [hmain]
  refine ⟨?_, List.mem_cons_self _ _, ?_, table_filter_removes _ _⟩
  · intro hmem
    rcases List.mem_cons.mp hmem with h | h
    · exact hne h
    · exact files_filter_removes _ _ h
  · split
    · assumption
    · exact List.mem_cons_self _ _

/-- Witness for C3 at a concrete world: `drafts/d-draft.md` is approved into
the `approved` folder. -/
theorem approval_moves_draft_witness :
    "drafts/d-draft.md" ∉
      (handle_approval ⟨["drafts/d-draft.md"], [], [("drafts/d-draft.md", 7)], [], 0⟩
        "drafts/d-draft.md" "approved" none).files ∧
    approvedPath "approved" "drafts/d-draft.md" ∈
      (handle_approval ⟨["drafts/d-draft.md"], [], [("drafts/d-draft.md", 7)], [], 0⟩
        "drafts/d-draft.md" "approved" none).files ∧
    "approved" ∈
      (handle_approval ⟨["drafts/d-draft.md"], [], [("drafts/d-draft.md", 7)], [], 0⟩
        "drafts/d-draft.md" "approved" none).dirs ∧
    (∀ e ∈ (handle_approval ⟨["drafts/d-draft.md"], [], [("drafts/d-draft.md", 7)], [], 0⟩
        "drafts/d-draft.md" "approved" none).table, e.1 ≠ "drafts/d-draft.md") :=
  approval_moves_draft ⟨["drafts/d-draft.md"], [], [("drafts/d-draft.md", 7)], [], 0⟩
    "drafts/d-draft.md" "approved" (by decide) (by decide)

/-- C3 counterexample to the claim as stated: when the tracked draft already
sits at `approved_folder/<name>` (here `approved/d-draft.md` with approved
folder `approved`), the approval succeeds without error — `rename` onto the
identical path is a no-op — yet the draft still exists at its original path,
contradicting "the draft file no longer exists at its original path". -/
theorem approval_claim_counterexample :
    (handle_approval ⟨["approved/d-draft.md"], ["approved"], [("approved/d-draft.md", 7)], [], 0⟩
        "approved/d-draft.md" "approved" none).errors = 0 ∧
    "approved/d-draft.md" ∈
      (handle_approval ⟨["approved/d-draft.md"], ["approved"], [("approved/d-draft.md", 7)], [], 0⟩
        "approved/d-draft.md" "approved" none).files := by
  decide

/-- C4: after a no-fault reject reaction, the draft's associated audio file
(the draft path with the audio extension) no longer exists, the rejection log
is the old log with one appended line `timestamp ++ "," ++ draft_path` — a
line ending with the draft's path — and the draft's table entry is removed. -/
theorem rejection_effects (w : World) (p ts : String) :
    rejectionAudioPath p ∉ (handle_rejection w p ts none).files ∧
    (handle_rejection w p ts none).rejLog = w.rejLog ++ [ts ++ "," ++ p] ∧
    p.data <:+ (ts ++ "," ++ p).data ∧
    (∀ e ∈ (handle_rejection w p ts none).table, e.1 ≠ p) := by
  have hmain : handle_rejection w p ts none =
      { w with
        files := w.files.filter (fun q => q != rejectionAudioPath p),
        rejLog := w.rejLog ++ [ts ++ "," ++ p],
        table := w.table.filter (fun e => e.1 != p) } := by
    simp [handle_rejection]
  rw [hmain]
  refine ⟨files_filter_removes _ _, rfl, ?_, table_filter_removes _ _⟩
  rw [String.data_append]
  exact List.suffix_append _ _

/-- C1 (amended): for input text of length at most 5000, the text sent to TTS
equals the input unmodified; for longer text, the sent text has length at most
5000 (4900 kept characters plus the 33-character marker) and ends with the
code's truncation marker `"... [content truncated for audio]"` — a space
separates the ellipsis from the bracket. -/
theorem tts_truncation_amended (content : List Char) :
    (content.length ≤ max_length → tts_content content = content) ∧
    (content.length > max_length →
       (tts_content content).length ≤ max_length ∧
       truncationMarkerCode <:+ tts_content content) := by
  constructor
  · intro h
    simp [tts_content, Nat.not_lt.mpr h]
  · intro h
    have hmarker : truncationMarkerCode.length = 33 := by decide
    constructor
    · simp only [tts_content, if_pos h, List.length_append, hmarker]
      have hle := List.length_take_le (max_length - 100) content
      simp only [max_length] at hle ⊢
      omega
    · simp only [tts_content, if_pos h]
      exact List.suffix_append _ _

/-- Witness for C1: a 10-character text passes through unmodified, and a
5001-character text is truncated to within the limit and ends with the
code's marker. -/
theorem tts_truncation_amended_witness :
    tts_content ("short post").data = ("short post").data ∧
    (tts_content (List.replicate 5001 'a')).length ≤ max_length ∧
    truncationMarkerCode <:+ tts_content (List.replicate 5001 'a') :=
  ⟨(tts_truncation_amended _).1 (by decide),
   ((tts_truncation_amended _).2 (by norm_num [max_length])).1,
   ((tts_truncation_amended _).2 (by norm_num [max_length])).2⟩

/-- C1 counterexample to the claim as stated: for the 5001-character input
`'a' * 5001` the sent text ends with the code's marker
`"... [content truncated for audio]"`, which does not end with the claim's
marker `"...[content truncated for audio]"` (no space), so the claimed suffix
fails. -/
theorem tts_truncation_claim_counterexample :
    ¬ ((List.replicate 5001 'a').length > max_length →
         (tts_content (List.replicate 5001 'a')).length ≤ max_length ∧
         truncationMarkerSpec <:+ tts_content (List.replicate 5001 'a')) := by
  intro hcl
  have h2 := (hcl (by norm_num [max_length])).2
  have heq : tts_content (List.replicate 5001 'a') =
      List.replicate 4900 'a' ++ truncationMarkerCode := by
    have htk : ((List.replicate 5001 'a' : List Char)).take (max_length - 100) =
        List.replicate 4900 'a' := by
      rw [List.take_replicate]
      norm_num [max_length]
    simp only [tts_content]
    rw [if_pos (by norm_num [max_length]), htk]
  rw [heq] at h2
  obtain ⟨t, ht⟩ := h2
  have hs : truncationMarkerSpec.length = 32 := by decide
  have hc : truncationMarkerCode.length = 33 := by decide
  have hlen : t.length = 4901 := by
    have hl := congrArg List.length ht
    simp only [List.length_append, List.length_replicate] at hl
    rw [hs, hc] at hl
    omega
  have hdrop1 : (t ++ truncationMarkerSpec).drop 4901 = truncationMarkerSpec :=
    List.drop_left' hlen
  have h49 : (List.replicate 4900 'a' ++ truncationMarkerCode).drop 4900 =
      truncationMarkerCode := List.drop_left' (by rw [List.length_replicate])
  have hdrop2 : (List.replicate 4900 'a' ++ truncationMarkerCode).drop 4901 =
      truncationMarkerCode.drop 1 := by
    have h4901 : (4901 : Nat) = 4900 + 1 := by norm_num
    rw [h4901, ← List.drop_drop, h49]
  have hcontr : truncationMarkerSpec = truncationMarkerCode.drop 1 := by
    rw [← hdrop1, ht, hdrop2]
  exact absurd hcontr (by decide)

/-- The length of a truncated card body: 2000 kept characters plus the
3-character ellipsis. -/
lemma embedDescription_length_of_gt {content : List Char}
    (h : content.length > displayLimit) :
    (embedDescription content).length = displayLimit + 3 := by
  simp only [embedDescription, if_pos h, List.length_append, List.length_take]
  have hd : (("...").data).length = 3 := by decide
  rw [hd]
  have h' : 2000 < content.length := h
  simp only [displayLimit] at h' ⊢
  omega

/-- C8 (amended): the notification card's body is the draft content truncated
to the 2000-unit display limit with an ellipsis appended exactly when the
content exceeds the limit; when truncated, the body has 2003 characters —
three more than the 2000-unit display limit, not within it — and the card's
character-count field equals the content's length. -/
theorem embed_description_amended (content : List Char) :
    (content.length ≤ displayLimit → embedDescription content = content) ∧
    (content.length > displayLimit →
       (embedDescription content).length = displayLimit + 3 ∧
       ("...").data <:+ embedDescription content) ∧
    embedSizeField content = content.length := by
  refine ⟨?_, ?_, rfl⟩
  · intro h
    simp [embedDescription, Nat.not_lt.mpr h, List.take_of_length_le h]
  · intro h
    exact ⟨embedDescription_length_of_gt h, by
      simp only [embedDescription, if_pos h]
      exact List.suffix_append _ _⟩

/-- Witness for C8: a short content passes through unmodified, and a
2001-character content yields a 2003-character body. -/
theorem embed_description_amended_witness :
    embedDescription ("Remote work trends").data = ("Remote work trends").data ∧
    (embedDescription (List.replicate 2001 'a')).length = displayLimit + 3 :=
  ⟨(embed_description_amended _).1 (by decide),
   ((embed_description_amended _).2.1 (by norm_num [displayLimit])).1⟩

/-- C8 counterexample to the claim as stated: at a 2001-character content the
body is `2000` characters plus the 3-character ellipsis, i.e. 2003 characters,
which exceeds the 2000-unit display limit. -/
theorem embed_description_claim_counterexample :
    ¬ ((embedDescription (List.replicate 2001 'a')).length ≤ displayLimit) := by
  have hlen : (embedDescription (List.replicate 2001 'a')).length = displayLimit + 3 :=
    embedDescription_length_of_gt (by rw [List.length_replicate]; norm_num [displayLimit])
  rw [hlen]
  norm_num [displayLimit]

/-- C6: the TTS stage returns `serviceUnavailable` when the service URL or
credential configuration is absent, `upstreamError` when the synthesis or the
download HTTP call fails (the `requests` call raises — non-2xx via
`raise_for_status`, or a transport error), and `noResult` when the synthesis
call succeeds but returns no retrievable URL; in every failure case no audio
file is written and the caller `process_draft` never sends the draft to the
notification stage. -/
theorem tts_failure_taxonomy (cfg : TTSConfig) (synth : SynthOutcome)
    (download : DownloadOutcome) (p : String) (st : PipelineState) (readOk : Bool) :
    ((falsy cfg.haUrl || falsy cfg.haToken) = true →
       generate_tts_audio cfg synth download p = (.serviceUnavailable, [])) ∧
    ((falsy cfg.haUrl || falsy cfg.haToken) = false → synth = .fail →
       generate_tts_audio cfg synth download p = (.upstreamError, [])) ∧
    ((falsy cfg.haUrl || falsy cfg.haToken) = false → synth = .ok none →
       generate_tts_audio cfg synth download p = (.noResult, [])) ∧
    (∀ u, (falsy cfg.haUrl || falsy cfg.haToken) = false → synth = .ok (some u) →
       download = .fail →
       generate_tts_audio cfg synth download p = (.upstreamError, [])) ∧
    ((∀ a, (generate_tts_audio cfg synth download p).1 ≠ TTSResult.success a) →
       (generate_tts_audio cfg synth download p).2 = [] ∧
       (process_draft st p readOk cfg synth download).notified = st.notified) := by
  refine ⟨?_, ?_, ?_, ?_, ?_⟩
  · intro hf; simp [generate_tts_audio, hf]
  · intro hf hs; simp [generate_tts_audio, hf, hs]
  · intro hf hs; simp [generate_tts_audio, hf, hs]
  · intro u hf hs hd; simp [generate_tts_audio, hf, hs, hd]
  · intro hfail
    have hw : (generate_tts_audio cfg synth download p).2 = [] := by
      cases hf : (falsy cfg.haUrl || falsy cfg.haToken)
      · cases synth with
        | fail => simp [generate_tts_audio, hf]
        | ok u =>
          cases u with
          | none => simp [generate_tts_audio, hf]
          | some v =>
            cases download with
            | fail => simp [generate_tts_audio, hf]
            | ok =>
              exact absurd (show (generate_tts_audio cfg (.ok (some v)) .ok p).1 =
                  .success (ttsAudioDest p) by simp [generate_tts_audio, hf])
                (hfail (ttsAudioDest p))
      · simp [generate_tts_audio, hf]
    refine ⟨hw, ?_⟩
    by_cases hp : p ∈ st.processed
    · simp [process_draft, hp]
    · cases readOk
      · simp [process_draft, hp]
      · cases hres : (generate_tts_audio cfg synth download p).1 with
        | success a => exact absurd hres (hfail a)
        | serviceUnavailable => simp [process_draft, hp, hres]
        | upstreamError => simp [process_draft, hp, hres]
        | noResult => simp [process_draft, hp, hres]

/-- Witness for C6: each failure classification at a concrete configuration
and response, and the abandonment of a concrete draft whose synthesis call
failed. -/
theorem tts_failure_taxonomy_witness :
    generate_tts_audio ⟨none, some "token"⟩ (.ok (some "/u")) .ok "drafts/d-draft.md" =
      (.serviceUnavailable, []) ∧
    generate_tts_audio ⟨some "http://ha", some "token"⟩ .fail .ok "drafts/d-draft.md" =
      (.upstreamError, []) ∧
    generate_tts_audio ⟨some "http://ha", some "token"⟩ (.ok none) .ok "drafts/d-draft.md" =
      (.noResult, []) ∧
    generate_tts_audio ⟨some "http://ha", some "token"⟩ (.ok (some "/u")) .fail
        "drafts/d-draft.md" = (.upstreamError, []) ∧
    (process_draft ⟨[], [], []⟩ "drafts/d-draft.md" true
        ⟨some "http://ha", some "token"⟩ .fail .ok).notified = [] :=
  ⟨(tts_failure_taxonomy ⟨none, some "token"⟩ (.ok (some "/u")) .ok "drafts/d-draft.md"
      ⟨[], [], []⟩ true).1 (by decide),
   (tts_failure_taxonomy ⟨some "http://ha", some "token"⟩ .fail .ok "drafts/d-draft.md"
      ⟨[], [], []⟩ true).2.1 (by decide) rfl,
   (tts_failure_taxonomy ⟨some "http://ha", some "token"⟩ (.ok none) .ok "drafts/d-draft.md"
      ⟨[], [], []⟩ true).2.2.1 (by decide) rfl,
   (tts_failure_taxonomy ⟨some "http://ha", some "token"⟩ (.ok (some "/u")) .fail
      "drafts/d-draft.md" ⟨[], [], []⟩ true).2.2.2.1 "/u" (by decide) rfl rfl,
   ((tts_failure_taxonomy ⟨some "http://ha", some "token"⟩ .fail .ok "drafts/d-draft.md"
      ⟨[], [], []⟩ true).2.2.2.2 (fun a => by simp [generate_tts_audio, falsy])).2⟩

end DraftWorkflow
